import Mathlib

/-!
Verification of the host-user management logic of `lib/srv/usermgmt.go`
(package `srv`): the identity lifecycle manager that creates managed host
accounts tagged with a marker group and safely deletes them later.

The Go code is parameterised over a `UserManagement` interface (the OS
Identity Backend).  We embed that interface as a record of state-passing
functions over an abstract backend state `σ`, and instrument every manager
function with a log of the backend calls it performs, so that frame
conditions ("the delete primitive is never invoked") are expressible.
-/

set_option autoImplicit false

namespace UserMgmt

/-- Go error values, as compared and produced by the manager code.
`trace.Wrap` keeps the underlying error observable, so it is modelled as
the identity on the underlying error value. -/
inductive GoError where
  | unknownUser (name : String)
  | unknownGroup (name : String)
  | alreadyExists (msg : String)
  | notFound (msg : String)
  | notImplemented (msg : String)
  | wrapWithMessage (e : GoError) (msg : String)
  | aggregate (es : List GoError)
  | other (msg : String)

/-- Decides the Go comparison `err == user.UnknownGroupError(name)`: a
`user.UnknownGroupError` is a string-typed error compared by value, so only
an `unknownGroup` error with the same name equals it. -/
def GoError.isUnknownGroupFor : GoError → String → Bool
  | .unknownGroup g, name => g = name
  | _, _ => false

/-- Decides the Go comparison `err == user.UnknownUserError(name)`. -/
def GoError.isUnknownUserFor : GoError → String → Bool
  | .unknownUser u, name => u = name
  | _, _ => false

/-- Model of `trace.Wrap`: the identity on the error, and nil maps to nil. -/
def traceWrap : Option GoError → Option GoError
  | none => none
  | some e => some e

/-- Model of `trace.NewAggregate`: filter out nil values; nil when nothing
remains, otherwise an aggregate of the non-nil errors. -/
def newAggregate (errs : List (Option GoError)) : Option GoError :=
  match errs.filterMap id with
  | [] => none
  | es => some (.aggregate es)

/-- Model of `trace.NewAggregate` applied to a list of already non-nil
errors (the manager only appends non-nil errors to `errs`). -/
def newAggregateList (errs : List GoError) : Option GoError :=
  match errs with
  | [] => none
  | es => some (.aggregate es)

/-- Model of `os/user.User` as used by the manager: the username and the
result of its `GroupIds()` call (a list of group id strings, or an error). -/
structure GoUser where
  username : String
  groupIds : List String
  groupIdsErr : Option GoError

/-- Model of `os/user.Group` as used by the manager: name and group id. -/
structure GoGroup where
  name : String
  gid : String
deriving DecidableEq, Repr

/-- One backend call, recorded in the call log of each manager operation. -/
inductive Call where
  | getAllUsers
  | lookup (username : String)
  | lookupGroup (name : String)
  | groupAdd (name : String)
  | userAdd (username : String) (groups : List String)
  | userDel (username : String)
deriving DecidableEq, Repr

/-- The `UserManagement` interface of `usermgmt.go`, embedded as a record of
state-passing functions over an abstract backend state `σ`.  Lookups are
reads (`Except`, exactly one of value/error, as `os/user` guarantees);
mutating primitives return a new state, an exit code and an error, as the
Go methods return `(int, error)`. -/
structure Backend (σ : Type) where
  getAllUsers : σ → Except GoError (List String)
  lookup : σ → String → Except GoError GoUser
  lookupGroup : σ → String → Except GoError GoGroup
  groupAdd : σ → String → σ × Int × Option GoError
  userAdd : σ → String → List String → σ × Int × Option GoError
  userDel : σ → String → σ × Int × Option GoError

/-- Exit code 9 of groupadd, man GROUPADD(8): group already exists. -/
def groupExistExit : Int := 9

/-- Exit code 9 of useradd, man USERADD(8): user already exists. -/
def userExistExit : Int := 9

/-- Exit code 8 of userdel, man USERDEL(8): user currently logged in. -/
def userLoggedInExit : Int := 8

/-- The marker group name `types.TeleportServiceGroup`. -/
def TeleportServiceGroup : String := "teleport-system"

/-- The `userCloser` handle returned by `createTemporaryUser`: the backend
and the username it is bound to. -/
structure UserCloser (σ : Type) where
  mgmt : Backend σ
  user : String

/-- Embedding of `createGroupIfNotExist`: look the group up, bail out on an
error other than `user.UnknownGroupError(group)`, then call `groupAdd` and
absorb the `groupExistExit` exit code. -/
def createGroupIfNotExist {σ : Type} (b : Backend σ) (s : σ) (group : String) :
    σ × List Call × Option GoError :=
  let doAdd : σ × List Call × Option GoError :=
    match b.groupAdd s group with
    | (s1, code, aerr) =>
      if code = groupExistExit then
        (s1, [.lookupGroup group, .groupAdd group], none)
      else
        (s1, [.lookupGroup group, .groupAdd group], traceWrap aerr)
  match b.lookupGroup s group with
  | .ok _ => doAdd
  | .error e =>
    if e.isUnknownGroupFor group then doAdd
    else (s, [.lookupGroup group], traceWrap (some e))

/-- Embedding of `deleteUserInGroup`: delete the user only if `gid` is among
its group ids, treating the `userLoggedInExit` exit code as success. -/
def deleteUserInGroup {σ : Type} (b : Backend σ) (s : σ) (username gid : String) :
    σ × List Call × Option GoError :=
  match b.lookup s username with
  | .error e => (s, [.lookup username], traceWrap (some e))
  | .ok tempUser =>
    match tempUser.groupIdsErr with
    | some e => (s, [.lookup username], traceWrap (some e))
    | none =>
      if gid ∈ tempUser.groupIds then
        match b.userDel s username with
        | (s1, code, derr) =>
          if code = userLoggedInExit then
            (s1, [.lookup username, .userDel username], none)
          else
            (s1, [.lookup username, .userDel username], traceWrap derr)
      else
        (s, [.lookup username], none)

/-- The sweep loop of `DeleteAllTeleportSystemUsers`: run `deleteUserInGroup`
for every enumerated user, threading the backend state and collecting each
per-user error (nil or not) in order. -/
def deleteLoop {σ : Type} (b : Backend σ) (s : σ) (gid : String) :
    List String → σ × List Call × List (Option GoError)
  | [] => (s, [], [])
  | u :: rest =>
    let r := deleteUserInGroup b s u gid
    let rs := deleteLoop b r.1 gid rest
    (rs.1, r.2.1 ++ rs.2.1, r.2.2 :: rs.2.2)

/-- Embedding of `DeleteAllTeleportSystemUsers`: enumerate users, resolve the
marker group once, sweep every user, and return the aggregate. -/
def DeleteAllTeleportSystemUsers {σ : Type} (b : Backend σ) (s : σ) :
    σ × List Call × Option GoError :=
  match b.getAllUsers s with
  | .error e => (s, [.getAllUsers], some e)
  | .ok users =>
    match b.lookupGroup s TeleportServiceGroup with
    | .error e => (s, [.getAllUsers, .lookupGroup TeleportServiceGroup], traceWrap (some e))
    | .ok teleportGroup =>
      let r := deleteLoop b s teleportGroup.gid users
      (r.1, .getAllUsers :: .lookupGroup TeleportServiceGroup :: r.2.1, newAggregate r.2.2)

/-- Embedding of `userCloser.Close`: resolve the marker group, then run
`deleteUserInGroup` for the handle's user with the marker group's gid. -/
def UserCloser.Close {σ : Type} (u : UserCloser σ) (s : σ) :
    σ × List Call × Option GoError :=
  match u.mgmt.lookupGroup s TeleportServiceGroup with
  | .error e => (s, [.lookupGroup TeleportServiceGroup], traceWrap (some e))
  | .ok g =>
    let r := deleteUserInGroup u.mgmt s u.user g.gid
    (r.1, .lookupGroup TeleportServiceGroup :: r.2.1, traceWrap r.2.2)

/-- The group-creation loop of `createTemporaryUser`: bootstrap every group,
threading state; collect the (non-nil) bootstrap errors and the names of the
groups whose bootstrap succeeded, both in iteration order. -/
def createGroupsLoop {σ : Type} (b : Backend σ) (s : σ) :
    List String → σ × List Call × List GoError × List String
  | [] => (s, [], [], [])
  | g :: rest =>
    let r := createGroupIfNotExist b s g
    let rs := createGroupsLoop b r.1 rest
    match r.2.2 with
    | some e => (rs.1, r.2.1 ++ rs.2.1, e :: rs.2.2.1, rs.2.2.2)
    | none => (rs.1, r.2.1 ++ rs.2.1, rs.2.2.1, g :: rs.2.2.2)

/-- Embedding of `createTemporaryUser`: returns the final backend state, the
call log, and the Go results `(closer, groupsCreated, err)`. -/
def createTemporaryUser {σ : Type} (b : Backend σ) (s : σ) (username : String)
    (groups : List String) :
    σ × List Call × Option (UserCloser σ) × List String × Option GoError :=
  match b.lookup s username with
  | .ok _ =>
    (s, [.lookup username], some ⟨b, username⟩, [],
      some (.alreadyExists "User already exists"))
  | .error e =>
    if ¬ e.isUnknownUserFor username then
      (s, [.lookup username], none, [], traceWrap (some e))
    else
      let gl := createGroupsLoop b s (groups ++ [TeleportServiceGroup])
      match newAggregateList gl.2.2.1 with
      | some agg =>
        (gl.1, .lookup username :: gl.2.1, none, gl.2.2.2,
          some (.wrapWithMessage agg "error while creating groups"))
      | none =>
        match b.userAdd gl.1 username (groups ++ [TeleportServiceGroup]) with
        | (s1, code, uerr) =>
          let callsSoFar := .lookup username :: gl.2.1 ++
            [Call.userAdd username (groups ++ [TeleportServiceGroup])]
          if code = userExistExit then
            (s1, callsSoFar, some ⟨b, username⟩, gl.2.2.2, none)
          else
            match uerr with
            | some e =>
              (s1, callsSoFar, none, gl.2.2.2,
                some (.wrapWithMessage e "error while creating user"))
            | none => (s1, callsSoFar, some ⟨b, username⟩, gl.2.2.2, none)

/-- State of a modelled OS identity store: accounts with their group-id
memberships, groups with their gids, and the currently logged-in users. -/
structure ModelState where
  users : List (String × List String)
  groups : List (String × String)
  busy : List String
deriving DecidableEq, Repr

/-- Find a group entry by name. -/
def ModelState.findGroup (st : ModelState) (name : String) : Option (String × String) :=
  st.groups.find? (fun p => p.1 = name)

/-- Find a user entry by name. -/
def ModelState.findUser (st : ModelState) (name : String) : Option (String × List String) :=
  st.users.find? (fun p => p.1 = name)

/-- Modelled from the spec: the platform implementation of the OS Identity
Backend (the repository's `unixMgmt` shells out to getpwent, groupadd,
useradd and userdel, whose behaviour is outside the Go source).  Per the
spec's capability table: enumeration returns the usernames or "not found"
when the store is empty; account/group resolution returns the attributes or
unknown-user/unknown-group; group and user creation return the
already-exists exit code when the entity exists; user deletion returns the
busy exit code, leaving the account in place, when the user is logged in.
As `exec.Cmd.Run` reports an error for every non-zero exit, each non-zero
exit code is accompanied by a non-nil error. -/
def modelBackend : Backend ModelState where
  getAllUsers := fun st =>
    if st.users.isEmpty then .error (.notFound "failed to find any /etc/passwd entries")
    else .ok (st.users.map Prod.fst)
  lookup := fun st n =>
    match st.findUser n with
    | some p => .ok ⟨n, p.2, none⟩
    | none => .error (.unknownUser n)
  lookupGroup := fun st n =>
    match st.findGroup n with
    | some p => .ok ⟨n, p.2⟩
    | none => .error (.unknownGroup n)
  groupAdd := fun st n =>
    match st.findGroup n with
    | some _ => (st, groupExistExit, some (.other "groupadd: group already exists"))
    | none => ({ st with groups := st.groups ++ [(n, "gid:" ++ n)] }, 0, none)
  userAdd := fun st n gs =>
    match st.findUser n with
    | some _ => (st, userExistExit, some (.other "useradd: user already exists"))
    | none =>
      let gids := gs.filterMap (fun g => (st.findGroup g).map Prod.snd)
      if gids.length = gs.length then
        ({ st with users := st.users ++ [(n, gids)] }, 0, none)
      else (st, 6, some (.other "useradd: group does not exist"))
  userDel := fun st n =>
    match st.findUser n with
    | none => (st, 6, some (.other "userdel: user does not exist"))
    | some _ =>
      if n ∈ st.busy then (st, userLoggedInExit, some (.other "userdel: user is logged in"))
      else ({ st with users := st.users.filter (fun p => p.1 ≠ n) }, 0, none)

/-! ## General lemmas about the embedded operations -/

theorem isUnknownGroupFor_true_iff (e : GoError) (g : String) :
    e.isUnknownGroupFor g = true ↔ e = .unknownGroup g := by
  cases e <;> simp [GoError.isUnknownGroupFor]

theorem isUnknownUserFor_true_iff (e : GoError) (u : String) :
    e.isUnknownUserFor u = true ↔ e = .unknownUser u := by
  cases e <;> simp [GoError.isUnknownUserFor]

theorem filterMap_id_eq_nil_iff (errs : List (Option GoError)) :
    List.filterMap id errs = [] ↔ ∀ e ∈ errs, e = none := by
  rw [List.filterMap_eq_nil_iff]
  constructor
  · intro h e he
    simpa using h e he
  · intro h e he
    rw [h e he]; rfl

theorem newAggregate_eq_none_iff (errs : List (Option GoError)) :
    newAggregate errs = none ↔ ∀ e ∈ errs, e = none := by
  unfold newAggregate
  rcases h : List.filterMap id errs with _ | ⟨x, xs⟩
  · exact iff_of_true rfl ((filterMap_id_eq_nil_iff errs).mp h)
  · refine iff_of_false (by simp) ?_
    intro hall
    rw [(filterMap_id_eq_nil_iff errs).mpr hall] at h
    simp at h

theorem lookup_mem_deleteUserInGroup {σ : Type} (b : Backend σ) (s : σ)
    (username gid : String) :
    Call.lookup username ∈ (deleteUserInGroup b s username gid).2.1 := by
  unfold deleteUserInGroup
  split
  · simp
  · split
    · simp
    · split
      · split
        · split <;> simp
      · simp

/-! ## C1: deletion safety for unmanaged accounts -/

/-- C1: for every account whose group memberships do not include the marker
group's gid, `deleteUserInGroup` returns success (nil error), never invokes
the backend's `userDel` primitive, and leaves the backend state unchanged. -/
theorem C1_deletion_safety {σ : Type} (b : Backend σ) (s : σ) (username gid : String)
    (gu : GoUser) (hlk : b.lookup s username = .ok gu) (hge : gu.groupIdsErr = none)
    (hmem : gid ∉ gu.groupIds) :
    (deleteUserInGroup b s username gid).2.2 = none ∧
    (∀ n, Call.userDel n ∉ (deleteUserInGroup b s username gid).2.1) ∧
    (deleteUserInGroup b s username gid).1 = s := by
  have hres : deleteUserInGroup b s username gid = (s, [.lookup username], none) := by
    simp [deleteUserInGroup, hlk, hge, hmem]
  rw [hres]
  refine ⟨rfl, ?_, rfl⟩
  intro n hn
  simp only [List.mem_singleton] at hn
  exact Call.noConfusion hn

/-- A backend with a pre-existing unmanaged account "alice" in group "100"
while the marker group's gid is "977". -/
def bC1 : Backend Unit where
  getAllUsers := fun _ => .ok ["alice"]
  lookup := fun _ n =>
    if n = "alice" then .ok ⟨"alice", ["100"], none⟩ else .error (.unknownUser n)
  lookupGroup := fun _ n => .ok ⟨n, "977"⟩
  groupAdd := fun s _ => (s, 0, none)
  userAdd := fun s _ _ => (s, 0, none)
  userDel := fun s _ => (s, 0, none)

/-- C1 witness: the unmanaged account "alice" (groups gid list ["100"], no
marker gid "977") is never deleted and the call returns success. -/
theorem C1_deletion_safety_witness :
    bC1.lookup () "alice" = .ok ⟨"alice", ["100"], none⟩ ∧
    ("977" : String) ∉ ["100"] ∧
    (deleteUserInGroup bC1 () "alice" "977").2.2 = none ∧
    (∀ n, Call.userDel n ∉ (deleteUserInGroup bC1 () "alice" "977").2.1) ∧
    (deleteUserInGroup bC1 () "alice" "977").1 = () := by
  have h := C1_deletion_safety bC1 () "alice" "977" ⟨"alice", ["100"], none⟩ rfl rfl
    (by decide)
  exact ⟨rfl, by decide, h.1, h.2.1, h.2.2⟩

/-! ## C4: creation for a pre-existing username -/

/-- C4: whenever the username lookup succeeds (the account pre-exists),
`createTemporaryUser` returns a non-nil handle bound to that username and
the backend, together with exactly the AlreadyExists error, never a generic
failure. -/
theorem C4_already_exists_handle {σ : Type} (b : Backend σ) (s : σ) (username : String)
    (groups : List String) (gu : GoUser) (hlk : b.lookup s username = .ok gu) :
    (createTemporaryUser b s username groups).2.2.1 = some ⟨b, username⟩ ∧
    (createTemporaryUser b s username groups).2.2.2.2 =
      some (.alreadyExists "User already exists") := by
  unfold createTemporaryUser
  rw [hlk]
  exact ⟨rfl, rfl⟩

/-- A backend in which the account "alice" already exists. -/
def bC4 : Backend Unit where
  getAllUsers := fun _ => .ok ["alice"]
  lookup := fun _ n =>
    if n = "alice" then .ok ⟨"alice", ["977"], none⟩ else .error (.unknownUser n)
  lookupGroup := fun _ n => .ok ⟨n, "977"⟩
  groupAdd := fun s _ => (s, 0, none)
  userAdd := fun s _ _ => (s, 0, none)
  userDel := fun s _ => (s, 0, none)

/-- C4 witness: creating "alice", which already exists, yields the handle
bound to "alice" and the AlreadyExists error. -/
theorem C4_already_exists_handle_witness :
    bC4.lookup () "alice" = .ok ⟨"alice", ["977"], none⟩ ∧
    (createTemporaryUser bC4 () "alice" ["docker"]).2.2.1 = some ⟨bC4, "alice"⟩ ∧
    (createTemporaryUser bC4 () "alice" ["docker"]).2.2.2.2 =
      some (.alreadyExists "User already exists") := by
  have h := C4_already_exists_handle bC4 () "alice" ["docker"] ⟨"alice", ["977"], none⟩ rfl
  exact ⟨rfl, h.1, h.2⟩

/-! ## C9: the pre-existing path performs no mutation -/

/-- C9: on the pre-existing-account path (lookup succeeds),
`createTemporaryUser` performs only the single account lookup: no group is
looked up or created, no user is added or deleted, the backend state is
unchanged and the returned groupsCreated list is empty. -/
theorem C9_preexisting_no_mutation {σ : Type} (b : Backend σ) (s : σ) (username : String)
    (groups : List String) (gu : GoUser) (hlk : b.lookup s username = .ok gu) :
    (createTemporaryUser b s username groups).1 = s ∧
    (createTemporaryUser b s username groups).2.1 = [Call.lookup username] ∧
    (createTemporaryUser b s username groups).2.2.2.1 = [] ∧
    (∀ g, Call.lookupGroup g ∉ (createTemporaryUser b s username groups).2.1) ∧
    (∀ g, Call.groupAdd g ∉ (createTemporaryUser b s username groups).2.1) ∧
    (∀ u gs, Call.userAdd u gs ∉ (createTemporaryUser b s username groups).2.1) ∧
    (∀ u, Call.userDel u ∉ (createTemporaryUser b s username groups).2.1) := by
  have hres : (createTemporaryUser b s username groups).2.1 = [Call.lookup username] := by
    unfold createTemporaryUser
    rw [hlk]
  refine ⟨?_, hres, ?_, ?_, ?_, ?_, ?_⟩
  · unfold createTemporaryUser; rw [hlk]
  · unfold createTemporaryUser; rw [hlk]
  · intro g hg; rw [hres] at hg; simp at hg
  · intro g hg; rw [hres] at hg; simp at hg
  · intro u gs hg; rw [hres] at hg; simp at hg
  · intro u hg; rw [hres] at hg; simp at hg

/-- C9 witness: creating the pre-existing "alice" performs only the lookup,
creates no group (in particular not the marker group) and returns an empty
groupsCreated list. -/
theorem C9_preexisting_no_mutation_witness :
    bC4.lookup () "alice" = .ok ⟨"alice", ["977"], none⟩ ∧
    (createTemporaryUser bC4 () "alice" ["docker"]).1 = () ∧
    (createTemporaryUser bC4 () "alice" ["docker"]).2.1 = [Call.lookup "alice"] ∧
    (createTemporaryUser bC4 () "alice" ["docker"]).2.2.2.1 = [] ∧
    (∀ g, Call.groupAdd g ∉ (createTemporaryUser bC4 () "alice" ["docker"]).2.1) := by
  have h := C9_preexisting_no_mutation bC4 () "alice" ["docker"] ⟨"alice", ["977"], none⟩ rfl
  exact ⟨rfl, h.1, h.2.1, h.2.2.1, h.2.2.2.2.1⟩

/-! ## C10: closing a handle when the marker group lookup fails -/

/-- C10: `userCloser.Close` first resolves the marker group; when that
lookup fails it returns the error, performs no account lookup and no
deletion, and leaves the backend state unchanged. -/
theorem C10_close_group_lookup_failure {σ : Type} (u : UserCloser σ) (s : σ) (e : GoError)
    (hlg : u.mgmt.lookupGroup s TeleportServiceGroup = .error e) :
    u.Close s = (s, [Call.lookupGroup TeleportServiceGroup], some e) ∧
    (∀ n, Call.lookup n ∉ (u.Close s).2.1) ∧
    (∀ n, Call.userDel n ∉ (u.Close s).2.1) := by
  have hres : u.Close s = (s, [Call.lookupGroup TeleportServiceGroup], some e) := by
    unfold UserCloser.Close
    rw [hlg]
    rfl
  refine ⟨hres, ?_, ?_⟩
  · intro n hn; rw [hres] at hn; simp at hn
  · intro n hn; rw [hres] at hn; simp at hn

/-- A backend on which the marker group does not exist. -/
def bC10 : Backend Unit where
  getAllUsers := fun _ => .ok []
  lookup := fun _ n => .error (.unknownUser n)
  lookupGroup := fun _ n => .error (.unknownGroup n)
  groupAdd := fun s _ => (s, 0, none)
  userAdd := fun s _ _ => (s, 0, none)
  userDel := fun s _ => (s, 0, none)

/-- C10 witness: closing a handle for "svc" when the marker group was never
created returns the unknown-group error, without any account lookup or
deletion. -/
theorem C10_close_group_lookup_failure_witness :
    bC10.lookupGroup () TeleportServiceGroup =
      .error (.unknownGroup TeleportServiceGroup) ∧
    UserCloser.Close ⟨bC10, "svc"⟩ () =
      ((), [Call.lookupGroup TeleportServiceGroup],
        some (.unknownGroup TeleportServiceGroup)) ∧
    (∀ n, Call.lookup n ∉ (UserCloser.Close ⟨bC10, "svc"⟩ ()).2.1) := by
  have h := C10_close_group_lookup_failure ⟨bC10, "svc"⟩ ()
    (.unknownGroup TeleportServiceGroup) rfl
  exact ⟨rfl, h.1, h.2.1⟩

/-! ## C2: when `createGroupIfNotExist` calls the create-group primitive

The Go function discards the result of the group lookup and calls
`mgmt.groupAdd` unconditionally unless the lookup failed with an error other
than `user.UnknownGroupError(group)`.  In particular the create-group
primitive IS invoked when the lookup succeeds; the already-exists exit code
is then absorbed.  The claim that a successful lookup suppresses the
create-group call is therefore false on the code. -/

/-- A backend on which the group "docker" already exists, so its lookup
succeeds, and `groupAdd` reports the already-exists exit code. -/
def bC2 : Backend Unit where
  getAllUsers := fun _ => .ok []
  lookup := fun _ n => .error (.unknownUser n)
  lookupGroup := fun _ _ => .ok ⟨"docker", "990"⟩
  groupAdd := fun s _ => (s, groupExistExit, some (.other "groupadd: group already exists"))
  userAdd := fun s _ _ => (s, 0, none)
  userDel := fun s _ => (s, 0, none)

/-- C2 counterexample: the lookup of "docker" succeeds, yet
`createGroupIfNotExist` still invokes the backend's create-group primitive. -/
theorem C2_counterexample_groupAdd_called :
    bC2.lookupGroup () "docker" = .ok ⟨"docker", "990"⟩ ∧
    Call.groupAdd "docker" ∈ (createGroupIfNotExist bC2 () "docker").2.1 := by
  exact ⟨rfl, by decide⟩

/-- C2 amended: `createGroupIfNotExist` calls the create-group primitive
exactly when the lookup succeeds or fails with the unknown-group error for
this group; only a lookup failure with any other error suppresses the
create-group call, propagating that error. -/
theorem C2_groupAdd_call_characterization {σ : Type} (b : Backend σ) (s : σ)
    (group : String) :
    (Call.groupAdd group ∈ (createGroupIfNotExist b s group).2.1 ↔
      ((∃ gr, b.lookupGroup s group = .ok gr) ∨
        b.lookupGroup s group = .error (.unknownGroup group))) ∧
    (∀ e, b.lookupGroup s group = .error e → e ≠ .unknownGroup group →
      createGroupIfNotExist b s group = (s, [Call.lookupGroup group], some e)) := by
  constructor
  · cases hl : b.lookupGroup s group with
    | ok gr =>
      refine iff_of_true ?_ (Or.inl ⟨gr, rfl⟩)
      simp only [createGroupIfNotExist, hl]
      split <;> simp
    | error e =>
      by_cases he : e.isUnknownGroupFor group = true
      · refine iff_of_true ?_ (Or.inr ?_)
        · simp only [createGroupIfNotExist, hl, he, if_true]
          split <;> simp
        · rw [(isUnknownGroupFor_true_iff e group).mp he]
      · refine iff_of_false ?_ ?_
        · simp only [createGroupIfNotExist, hl]
          rw [if_neg he]
          simp
        · rintro (⟨gr, hgr⟩ | hgr)
          · exact Except.noConfusion hgr
          · have he' : e = .unknownGroup group := by
              injection hgr
            exact he ((isUnknownGroupFor_true_iff e group).mpr he')
  · intro e hl hne
    simp only [createGroupIfNotExist, hl]
    rw [if_neg (fun hc => hne ((isUnknownGroupFor_true_iff e group).mp hc))]
    rfl

/-- A backend whose group lookup fails with a non-unknown-group error. -/
def bC2b : Backend Unit where
  getAllUsers := fun _ => .ok []
  lookup := fun _ n => .error (.unknownUser n)
  lookupGroup := fun _ _ => .error (.other "nss is down")
  groupAdd := fun s _ => (s, 0, none)
  userAdd := fun s _ _ => (s, 0, none)
  userDel := fun s _ => (s, 0, none)

/-- C2 witness: with a successful lookup the create-group call is made, and
with a non-unknown-group lookup failure it is not and the error propagates. -/
theorem C2_groupAdd_call_characterization_witness :
    (Call.groupAdd "docker" ∈ (createGroupIfNotExist bC2 () "docker").2.1) ∧
    bC2b.lookupGroup () "docker" = .error (.other "nss is down") ∧
    createGroupIfNotExist bC2b () "docker" =
      ((), [Call.lookupGroup "docker"], some (.other "nss is down")) := by
  refine ⟨?_, rfl, ?_⟩
  · exact (C2_groupAdd_call_characterization bC2 () "docker").1.mpr
      (Or.inl ⟨⟨"docker", "990"⟩, rfl⟩)
  · exact (C2_groupAdd_call_characterization bC2b () "docker").2 (.other "nss is down")
      rfl (by intro h; exact GoError.noConfusion h)

/-! ## C5: busy accounts are tolerated and kept -/

/-- C5: for an account in the marker group, when the delete primitive
returns the user-logged-in exit code, `deleteUserInGroup` returns success
regardless of the error value accompanying that exit code; and on the
modelled backend a busy account is left present, with the whole store
unchanged. -/
theorem C5_busy_exit_tolerated {σ : Type} (b : Backend σ) (s s' : σ)
    (username gid : String) (gu : GoUser) (e : Option GoError)
    (hlk : b.lookup s username = .ok gu) (hge : gu.groupIdsErr = none)
    (hmem : gid ∈ gu.groupIds)
    (hdel : b.userDel s username = (s', userLoggedInExit, e)) :
    (deleteUserInGroup b s username gid).2.2 = none ∧
    (∀ (st : ModelState) (mu : GoUser),
      modelBackend.lookup st username = .ok mu → gid ∈ mu.groupIds →
      username ∈ st.busy →
      (deleteUserInGroup modelBackend st username gid).2.2 = none ∧
      (deleteUserInGroup modelBackend st username gid).1 = st ∧
      username ∈ ((deleteUserInGroup modelBackend st username gid).1).users.map Prod.fst) := by
  constructor
  · simp [deleteUserInGroup, hlk, hge, hmem, hdel]
  · intro st mu hlkm hmemm hbusy
    cases hf : st.findUser username with
    | none =>
      rw [show modelBackend.lookup st username = .error (.unknownUser username) from by
        simp [modelBackend, hf]] at hlkm
      exact Except.noConfusion hlkm
    | some p =>
      have hmu : mu = ⟨username, p.2, none⟩ := by
        rw [show modelBackend.lookup st username = .ok ⟨username, p.2, none⟩ from by
          simp [modelBackend, hf]] at hlkm
        injection hlkm with h
        exact h.symm
      have hmem' : gid ∈ p.2 := by rw [hmu] at hmemm; exact hmemm
      have hres : deleteUserInGroup modelBackend st username gid =
          (st, [Call.lookup username, Call.userDel username], none) := by
        simp [deleteUserInGroup, modelBackend, hf, hmem', hbusy]
      refine ⟨by rw [hres], by rw [hres], ?_⟩
      rw [hres]
      have hp1 : p.1 = username := by
        have := List.find?_some hf
        simpa using this
      exact List.mem_map.mpr ⟨p, List.mem_of_find?_eq_some hf, hp1⟩

/-- A model store with the marker group, one managed account "svc" that is
a member of it, and "svc" currently logged in. -/
def stC5 : ModelState :=
  ⟨[("svc", ["gid:teleport-system"])], [("teleport-system", "gid:teleport-system")], ["svc"]⟩

/-- C5 witness: deleting the busy managed account "svc" returns success and
the account is still present afterwards. -/
theorem C5_busy_exit_tolerated_witness :
    modelBackend.lookup stC5 "svc" = .ok ⟨"svc", ["gid:teleport-system"], none⟩ ∧
    modelBackend.userDel stC5 "svc" =
      (stC5, userLoggedInExit, some (.other "userdel: user is logged in")) ∧
    (deleteUserInGroup modelBackend stC5 "svc" "gid:teleport-system").2.2 = none ∧
    (deleteUserInGroup modelBackend stC5 "svc" "gid:teleport-system").1 = stC5 ∧
    "svc" ∈ ((deleteUserInGroup modelBackend stC5 "svc" "gid:teleport-system").1).users.map
      Prod.fst := by
  have h := C5_busy_exit_tolerated modelBackend stC5 stC5 "svc" "gid:teleport-system"
    ⟨"svc", ["gid:teleport-system"], none⟩ (some (.other "userdel: user is logged in"))
    rfl rfl (by simp) rfl
  have h2 := h.2 stC5 ⟨"svc", ["gid:teleport-system"], none⟩ rfl (by simp) (by simp [stC5])
  exact ⟨rfl, rfl, h2.1, h2.2.1, h2.2.2⟩

/-! ## C6: the already-exists exit code of groupadd is absorbed -/

theorem find?_append_of_none {α : Type} (p : α → Bool) :
    ∀ (l1 l2 : List α), l1.find? p = none → (l1 ++ l2).find? p = l2.find? p
  | [], _, _ => by simp
  | a :: l1, l2, h => by
    cases hpa : p a with
    | true =>
      rw [List.find?_cons_of_pos _ hpa] at h
      exact Option.noConfusion h
    | false =>
      have hpa' : ¬ p a = true := by simp [hpa]
      rw [List.find?_cons_of_neg _ hpa'] at h
      rw [List.cons_append, List.find?_cons_of_neg _ hpa']
      exact find?_append_of_none p l1 l2 h

/-- Group bootstrap on the modelled backend always leaves the group present. -/
theorem model_group_exists_after_create (st : ModelState) (g : String) :
    ∃ p, ((createGroupIfNotExist modelBackend st g).1).findGroup g = some p := by
  cases hf : st.findGroup g with
  | some p =>
    have hres : (createGroupIfNotExist modelBackend st g).1 = st := by
      simp [createGroupIfNotExist, modelBackend, hf]
    exact ⟨p, by rw [hres, hf]⟩
  | none =>
    have hres : (createGroupIfNotExist modelBackend st g).1 =
        { st with groups := st.groups ++ [(g, "gid:" ++ g)] } := by
      simp [createGroupIfNotExist, modelBackend, hf, GoError.isUnknownGroupFor,
        groupExistExit]
    refine ⟨(g, "gid:" ++ g), ?_⟩
    rw [hres]
    show (st.groups ++ [(g, "gid:" ++ g)]).find? (fun p => p.1 = g) = some (g, "gid:" ++ g)
    rw [find?_append_of_none _ st.groups _ hf]
    simp

/-- C6: `createGroupIfNotExist` returns success whenever the create-group
primitive reports the already-exists exit code, even when that call also
reports an error (given the lookup did not already fail with a
non-unknown-group error); consequently, on the modelled backend, running
group bootstrap twice in sequence never returns an error on the second
call. -/
theorem C6_idempotent_group_bootstrap {σ : Type} (b : Backend σ) (s s' : σ)
    (group : String) (e : Option GoError)
    (hlk : ∀ e', b.lookupGroup s group = .error e' → e' = .unknownGroup group)
    (hadd : b.groupAdd s group = (s', groupExistExit, e)) :
    (createGroupIfNotExist b s group).2.2 = none ∧
    (∀ (st : ModelState) (g : String),
      (createGroupIfNotExist modelBackend
        (createGroupIfNotExist modelBackend st g).1 g).2.2 = none) := by
  constructor
  · cases hl : b.lookupGroup s group with
    | ok gr => simp [createGroupIfNotExist, hl, hadd]
    | error e' =>
      have he' : e' = .unknownGroup group := hlk e' hl
      subst he'
      simp [createGroupIfNotExist, hl, hadd, GoError.isUnknownGroupFor]
  · intro st g
    obtain ⟨p, hp⟩ := model_group_exists_after_create st g
    set st1 := (createGroupIfNotExist modelBackend st g).1 with hst1
    have hlg : modelBackend.lookupGroup st1 g = .ok ⟨g, p.2⟩ := by
      simp [modelBackend, hp]
    have hga : modelBackend.groupAdd st1 g =
        (st1, groupExistExit, some (.other "groupadd: group already exists")) := by
      simp [modelBackend, hp]
    simp [createGroupIfNotExist, hlg, hga]

/-- A model store in which the group "grp" already exists. -/
def stC6 : ModelState := ⟨[], [("grp", "gid:grp")], []⟩

/-- C6 witness: on a store where "grp" exists, bootstrap succeeds by
absorbing the already-exists exit code; and bootstrapping "fresh" twice on
an empty store yields no error on the second call. -/
theorem C6_idempotent_group_bootstrap_witness :
    modelBackend.groupAdd stC6 "grp" =
      (stC6, groupExistExit, some (.other "groupadd: group already exists")) ∧
    (createGroupIfNotExist modelBackend stC6 "grp").2.2 = none ∧
    (createGroupIfNotExist modelBackend
      (createGroupIfNotExist modelBackend ⟨[], [], []⟩ "fresh").1 "fresh").2.2 = none := by
  have h := C6_idempotent_group_bootstrap modelBackend stC6 stC6 "grp"
    (some (.other "groupadd: group already exists"))
    (by
      intro e' he'
      rw [show modelBackend.lookupGroup stC6 "grp" = .ok ⟨"grp", "gid:grp"⟩ from rfl] at he'
      exact Except.noConfusion he')
    rfl
  exact ⟨rfl, h.1, h.2 ⟨[], [], []⟩ "fresh"⟩

/-! ## C3: bulk teardown aggregates per-account failures -/

theorem deleteLoop_attempts {σ : Type} (b : Backend σ) (gid : String) :
    ∀ (users : List String) (s : σ), ∀ u ∈ users,
      Call.lookup u ∈ (deleteLoop b s gid users).2.1 := by
  intro users
  induction users with
  | nil => intro s u hu; exact absurd hu (List.not_mem_nil u)
  | cons v rest ih =>
    intro s u hu
    show Call.lookup u ∈ ((deleteUserInGroup b s v gid).2.1 ++
      (deleteLoop b (deleteUserInGroup b s v gid).1 gid rest).2.1)
    rw [List.mem_append]
    rcases List.mem_cons.mp hu with h | h
    · subst h
      exact Or.inl (lookup_mem_deleteUserInGroup b s u gid)
    · exact Or.inr (ih _ u h)

theorem deleteLoop_errs_length {σ : Type} (b : Backend σ) (gid : String) :
    ∀ (users : List String) (s : σ),
      (deleteLoop b s gid users).2.2.length = users.length := by
  intro users
  induction users with
  | nil => intro s; rfl
  | cons v rest ih =>
    intro s
    show ((deleteUserInGroup b s v gid).2.2 ::
      (deleteLoop b (deleteUserInGroup b s v gid).1 gid rest).2.2).length =
      (v :: rest).length
    simp [ih]

/-- C3: `DeleteAllTeleportSystemUsers` runs the membership-check-then-delete
policy on every enumerated account (so a per-account failure never aborts
the sweep), returns the aggregate of the per-account results with one slot
per account, and that aggregate is nil exactly when no account failed. -/
theorem C3_bulk_aggregation {σ : Type} (b : Backend σ) (s : σ) (users : List String)
    (g : GoGroup) (hga : b.getAllUsers s = .ok users)
    (hlg : b.lookupGroup s TeleportServiceGroup = .ok g) :
    (∀ u ∈ users, Call.lookup u ∈ (DeleteAllTeleportSystemUsers b s).2.1) ∧
    (DeleteAllTeleportSystemUsers b s).2.2 =
      newAggregate (deleteLoop b s g.gid users).2.2 ∧
    (deleteLoop b s g.gid users).2.2.length = users.length ∧
    ((DeleteAllTeleportSystemUsers b s).2.2 = none ↔
      ∀ e ∈ (deleteLoop b s g.gid users).2.2, e = none) := by
  have hres : DeleteAllTeleportSystemUsers b s =
      ((deleteLoop b s g.gid users).1,
        .getAllUsers :: .lookupGroup TeleportServiceGroup ::
          (deleteLoop b s g.gid users).2.1,
        newAggregate (deleteLoop b s g.gid users).2.2) := by
    simp [DeleteAllTeleportSystemUsers, hga, hlg]
  refine ⟨?_, ?_, deleteLoop_errs_length b g.gid users s, ?_⟩
  · intro u hu
    rw [hres]
    exact List.mem_cons_of_mem _
      (List.mem_cons_of_mem _ (deleteLoop_attempts b g.gid users s u hu))
  · rw [hres]
  · rw [hres]
    exact newAggregate_eq_none_iff _

/-- A backend enumerating three managed accounts in which the deletion of
"u2" fails with a non-busy exit code and error while "u1" and "u3" delete
cleanly. -/
def bC3 : Backend Unit where
  getAllUsers := fun _ => .ok ["u1", "u2", "u3"]
  lookup := fun _ n => .ok ⟨n, ["977"], none⟩
  lookupGroup := fun _ _ => .ok ⟨"teleport-system", "977"⟩
  groupAdd := fun s _ => (s, 0, none)
  userAdd := fun s _ _ => (s, 0, none)
  userDel := fun s n =>
    if n = "u2" then (s, 1, some (.other "userdel: permission denied")) else (s, 0, none)

/-- C3 witness: with three managed accounts where only the second's deletion
fails (non-busy), the sweep still attempts the first and the third and the
returned aggregate contains exactly the one error of the second. -/
theorem C3_bulk_aggregation_witness :
    bC3.getAllUsers () = .ok ["u1", "u2", "u3"] ∧
    (∀ u ∈ ["u1", "u2", "u3"], Call.lookup u ∈ (DeleteAllTeleportSystemUsers bC3 ()).2.1) ∧
    Call.userDel "u1" ∈ (DeleteAllTeleportSystemUsers bC3 ()).2.1 ∧
    Call.userDel "u3" ∈ (DeleteAllTeleportSystemUsers bC3 ()).2.1 ∧
    (DeleteAllTeleportSystemUsers bC3 ()).2.2 =
      some (.aggregate [.other "userdel: permission denied"]) := by
  have h := C3_bulk_aggregation bC3 () ["u1", "u2", "u3"] ⟨"teleport-system", "977"⟩ rfl rfl
  exact ⟨rfl, h.1, by decide, by decide, h.2.1.trans rfl⟩

/-! ## C7, C8: account creation on the fresh-username path -/

theorem createGroupIfNotExist_calls {σ : Type} (b : Backend σ) (s : σ) (group : String) :
    ∀ c ∈ (createGroupIfNotExist b s group).2.1,
      c = Call.lookupGroup group ∨ c = Call.groupAdd group := by
  intro c hc
  cases hl : b.lookupGroup s group with
  | ok gr =>
    simp only [createGroupIfNotExist, hl] at hc
    revert hc
    split <;> (intro hc; simpa using hc)
  | error e =>
    by_cases he : e.isUnknownGroupFor group = true
    · simp only [createGroupIfNotExist, hl, he, if_true] at hc
      revert hc
      split <;> (intro hc; simpa using hc)
    · simp only [createGroupIfNotExist, hl] at hc
      rw [if_neg he] at hc
      simp only [List.mem_singleton] at hc
      exact Or.inl hc

theorem createGroupIfNotExist_lookupGroup_self {σ : Type} (b : Backend σ) (s : σ)
    (group : String) :
    Call.lookupGroup group ∈ (createGroupIfNotExist b s group).2.1 := by
  cases hl : b.lookupGroup s group with
  | ok gr =>
    simp only [createGroupIfNotExist, hl]
    split <;> simp
  | error e =>
    by_cases he : e.isUnknownGroupFor group = true
    · simp only [createGroupIfNotExist, hl, he, if_true]
      split <;> simp
    · simp only [createGroupIfNotExist, hl]
      rw [if_neg he]
      simp

theorem createGroupsLoop_cons_calls {σ : Type} (b : Backend σ) (s : σ) (g : String)
    (rest : List String) :
    (createGroupsLoop b s (g :: rest)).2.1 =
      (createGroupIfNotExist b s g).2.1 ++
        (createGroupsLoop b (createGroupIfNotExist b s g).1 rest).2.1 := by
  cases h : (createGroupIfNotExist b s g).2.2 <;> simp [createGroupsLoop, h]

theorem createGroupsLoop_lookupGroup_mem {σ : Type} (b : Backend σ) :
    ∀ (gs : List String) (s : σ), ∀ g ∈ gs,
      Call.lookupGroup g ∈ (createGroupsLoop b s gs).2.1 := by
  intro gs
  induction gs with
  | nil => intro s g hg; exact absurd hg (List.not_mem_nil g)
  | cons g0 rest ih =>
    intro s g hg
    rw [createGroupsLoop_cons_calls, List.mem_append]
    rcases List.mem_cons.mp hg with h | h
    · subst h
      exact Or.inl (createGroupIfNotExist_lookupGroup_self b s g)
    · exact Or.inr (ih _ g h)

theorem createGroupsLoop_calls_shape {σ : Type} (b : Backend σ) :
    ∀ (gs : List String) (s : σ), ∀ c ∈ (createGroupsLoop b s gs).2.1,
      ∃ g ∈ gs, c = Call.lookupGroup g ∨ c = Call.groupAdd g := by
  intro gs
  induction gs with
  | nil => intro s c hc; exact absurd hc (List.not_mem_nil c)
  | cons g0 rest ih =>
    intro s c hc
    rw [createGroupsLoop_cons_calls, List.mem_append] at hc
    rcases hc with h | h
    · exact ⟨g0, List.mem_cons_self g0 rest, createGroupIfNotExist_calls b s g0 c h⟩
    · obtain ⟨g, hg, hcg⟩ := ih _ c h
      exact ⟨g, List.mem_cons_of_mem g0 hg, hcg⟩

theorem createGroupsLoop_counts {σ : Type} (b : Backend σ) :
    ∀ (gs : List String) (s : σ),
      (createGroupsLoop b s gs).2.2.1.length + (createGroupsLoop b s gs).2.2.2.length =
        gs.length := by
  intro gs
  induction gs with
  | nil => intro s; rfl
  | cons g0 rest ih =>
    intro s
    have h0 := ih (createGroupIfNotExist b s g0).1
    cases h : (createGroupIfNotExist b s g0).2.2 with
    | none =>
      simp only [createGroupsLoop, h, List.length_cons]
      omega
    | some e =>
      simp only [createGroupsLoop, h, List.length_cons]
      omega

/-- On the fresh-username path, the call log of `createTemporaryUser` is the
account lookup followed by the group-bootstrap calls, optionally followed by
the single `userAdd`. -/
theorem createTemporaryUser_unknown_calls {σ : Type} (b : Backend σ) (s : σ)
    (username : String) (groups : List String)
    (hlk : b.lookup s username = .error (.unknownUser username)) :
    (createTemporaryUser b s username groups).2.1 =
      Call.lookup username ::
        (createGroupsLoop b s (groups ++ [TeleportServiceGroup])).2.1 ∨
    (createTemporaryUser b s username groups).2.1 =
      Call.lookup username ::
        ((createGroupsLoop b s (groups ++ [TeleportServiceGroup])).2.1 ++
          [Call.userAdd username (groups ++ [TeleportServiceGroup])]) := by
  simp only [createTemporaryUser, hlk, GoError.isUnknownUserFor]
  rw [if_neg (by simp)]
  split
  · exact Or.inl rfl
  · split
    · exact Or.inr rfl
    · split
      · exact Or.inr rfl
      · exact Or.inr rfl

/-- C7: when the username does not pre-exist, `createTemporaryUser` runs
group bootstrap for every group in `groups` plus the marker group (it does
not stop at the first failure), with every group accounted for exactly once
as a failure or a created group; when at least one bootstrap failed, the
whole operation fails with the aggregate of all failures tagged as a
group-creation error, the handle is nil, the successfully created groups
are still returned, and the user-creation primitive is never called. -/
theorem C7_group_bootstrap_aggregation {σ : Type} (b : Backend σ) (s : σ)
    (username : String) (groups : List String)
    (hlk : b.lookup s username = .error (.unknownUser username)) :
    (∀ g ∈ groups ++ [TeleportServiceGroup],
      Call.lookupGroup g ∈ (createTemporaryUser b s username groups).2.1) ∧
    ((createGroupsLoop b s (groups ++ [TeleportServiceGroup])).2.2.1.length +
      (createGroupsLoop b s (groups ++ [TeleportServiceGroup])).2.2.2.length =
      groups.length + 1) ∧
    (∀ e0 es,
      (createGroupsLoop b s (groups ++ [TeleportServiceGroup])).2.2.1 = e0 :: es →
      (createTemporaryUser b s username groups).2.2.2.2 =
        some (.wrapWithMessage (.aggregate (e0 :: es)) "error while creating groups") ∧
      (createTemporaryUser b s username groups).2.2.1 = none ∧
      (createTemporaryUser b s username groups).2.2.2.1 =
        (createGroupsLoop b s (groups ++ [TeleportServiceGroup])).2.2.2 ∧
      (∀ u gs, Call.userAdd u gs ∉ (createTemporaryUser b s username groups).2.1)) := by
  refine ⟨?_, ?_, ?_⟩
  · intro g hg
    have hmem := createGroupsLoop_lookupGroup_mem b (groups ++ [TeleportServiceGroup]) s g hg
    rcases createTemporaryUser_unknown_calls b s username groups hlk with h | h <;> rw [h]
    · exact List.mem_cons_of_mem _ hmem
    · exact List.mem_cons_of_mem _ (List.mem_append_left _ hmem)
  · have := createGroupsLoop_counts b (groups ++ [TeleportServiceGroup]) s
    simpa using this
  · intro e0 es hes
    have hred : createTemporaryUser b s username groups =
        ((createGroupsLoop b s (groups ++ [TeleportServiceGroup])).1,
          Call.lookup username ::
            (createGroupsLoop b s (groups ++ [TeleportServiceGroup])).2.1,
          none,
          (createGroupsLoop b s (groups ++ [TeleportServiceGroup])).2.2.2,
          some (.wrapWithMessage (.aggregate (e0 :: es)) "error while creating groups")) := by
      simp only [createTemporaryUser, hlk, GoError.isUnknownUserFor]
      rw [if_neg (by simp)]
      simp only [hes, newAggregateList]
    refine ⟨by rw [hred], by rw [hred], by rw [hred], ?_⟩
    intro u gs hu
    rw [hred] at hu
    simp only [List.mem_cons] at hu
    rcases hu with h | h
    · exact Call.noConfusion h
    · obtain ⟨g, _, hg⟩ :=
        createGroupsLoop_calls_shape b (groups ++ [TeleportServiceGroup]) s _ h
      rcases hg with h' | h' <;> exact Call.noConfusion h'

/-- A backend on which no user exists, the lookup of group "bad" fails with
a non-unknown-group error, and every other group bootstrap succeeds. -/
def bC7 : Backend Unit where
  getAllUsers := fun _ => .ok []
  lookup := fun _ n => .error (.unknownUser n)
  lookupGroup := fun _ n =>
    if n = "bad" then .error (.other "nss failure") else .error (.unknownGroup n)
  groupAdd := fun s _ => (s, 0, none)
  userAdd := fun s _ _ => (s, 0, none)
  userDel := fun s _ => (s, 0, none)

/-- C7 witness: creating fresh "svc" with groups ["bad", "docker"] bootstraps
all three groups, fails with the aggregate holding the one "bad" failure
tagged as a group-creation error, still reports ["docker",
"teleport-system"] as created, and never calls the user-add primitive. -/
theorem C7_group_bootstrap_aggregation_witness :
    bC7.lookup () "svc" = .error (.unknownUser "svc") ∧
    (createGroupsLoop bC7 () (["bad", "docker"] ++ [TeleportServiceGroup])).2.2.1 =
      [.other "nss failure"] ∧
    (∀ g ∈ ["bad", "docker"] ++ [TeleportServiceGroup],
      Call.lookupGroup g ∈ (createTemporaryUser bC7 () "svc" ["bad", "docker"]).2.1) ∧
    (createTemporaryUser bC7 () "svc" ["bad", "docker"]).2.2.2.2 =
      some (.wrapWithMessage (.aggregate [.other "nss failure"])
        "error while creating groups") ∧
    (createTemporaryUser bC7 () "svc" ["bad", "docker"]).2.2.1 = none ∧
    (createTemporaryUser bC7 () "svc" ["bad", "docker"]).2.2.2.1 =
      ["docker", "teleport-system"] ∧
    (∀ u gs,
      Call.userAdd u gs ∉ (createTemporaryUser bC7 () "svc" ["bad", "docker"]).2.1) := by
  have h := C7_group_bootstrap_aggregation bC7 () "svc" ["bad", "docker"] rfl
  have hc := h.2.2 (.other "nss failure") [] rfl
  exact ⟨rfl, rfl, h.1, hc.1, hc.2.1, hc.2.2.1.trans rfl, hc.2.2.2⟩

/-- C8: on the fresh-username path with all group bootstraps succeeding, the
user-add call carries membership in `groups` plus the marker group; the
user-already-exists exit code yields success and a handle even when the
backend call also reports an error, and any other exit code with a non-nil
error fails the operation with a user-creation error alongside the groups
already created. -/
theorem C8_user_creation {σ : Type} (b : Backend σ) (s s1 : σ) (username : String)
    (groups : List String) (code : Int) (uerr : Option GoError)
    (hlk : b.lookup s username = .error (.unknownUser username))
    (hgl : (createGroupsLoop b s (groups ++ [TeleportServiceGroup])).2.2.1 = [])
    (hua : b.userAdd (createGroupsLoop b s (groups ++ [TeleportServiceGroup])).1 username
      (groups ++ [TeleportServiceGroup]) = (s1, code, uerr)) :
    Call.userAdd username (groups ++ [TeleportServiceGroup]) ∈
      (createTemporaryUser b s username groups).2.1 ∧
    (code = userExistExit →
      (createTemporaryUser b s username groups).2.2.1 = some ⟨b, username⟩ ∧
      (createTemporaryUser b s username groups).2.2.2.2 = none) ∧
    (∀ e, code ≠ userExistExit → uerr = some e →
      (createTemporaryUser b s username groups).2.2.1 = none ∧
      (createTemporaryUser b s username groups).2.2.2.2 =
        some (.wrapWithMessage e "error while creating user") ∧
      (createTemporaryUser b s username groups).2.2.2.1 =
        (createGroupsLoop b s (groups ++ [TeleportServiceGroup])).2.2.2) := by
  have hbase : createTemporaryUser b s username groups =
      (if code = userExistExit then
        (s1, Call.lookup username ::
          ((createGroupsLoop b s (groups ++ [TeleportServiceGroup])).2.1 ++
            [Call.userAdd username (groups ++ [TeleportServiceGroup])]),
          some ⟨b, username⟩,
          (createGroupsLoop b s (groups ++ [TeleportServiceGroup])).2.2.2, none)
      else
        match uerr with
        | some e =>
          (s1, Call.lookup username ::
            ((createGroupsLoop b s (groups ++ [TeleportServiceGroup])).2.1 ++
              [Call.userAdd username (groups ++ [TeleportServiceGroup])]),
            none,
            (createGroupsLoop b s (groups ++ [TeleportServiceGroup])).2.2.2,
            some (.wrapWithMessage e "error while creating user"))
        | none =>
          (s1, Call.lookup username ::
            ((createGroupsLoop b s (groups ++ [TeleportServiceGroup])).2.1 ++
              [Call.userAdd username (groups ++ [TeleportServiceGroup])]),
            some ⟨b, username⟩,
            (createGroupsLoop b s (groups ++ [TeleportServiceGroup])).2.2.2, none)) := by
    simp only [createTemporaryUser, hlk, GoError.isUnknownUserFor]
    rw [if_neg (by simp)]
    simp only [hgl, newAggregateList, hua]
    rfl
  refine ⟨?_, ?_, ?_⟩
  · by_cases hcode : code = userExistExit
    · rw [hbase, if_pos hcode]
      exact List.mem_cons_of_mem _ (List.mem_append_right _ (List.mem_singleton.mpr rfl))
    · rw [hbase, if_neg hcode]
      cases uerr <;>
        exact List.mem_cons_of_mem _ (List.mem_append_right _ (List.mem_singleton.mpr rfl))
  · intro hcode
    rw [hbase, if_pos hcode]
    exact ⟨rfl, rfl⟩
  · intro e hcode hue
    rw [hbase, if_neg hcode, hue]
    exact ⟨rfl, rfl, rfl⟩

/-- A backend on which no user exists, group bootstrap succeeds, and the
user-add primitive reports the user-already-exists exit code together with
an error (a lost creation race). -/
def bC8 : Backend Unit where
  getAllUsers := fun _ => .ok []
  lookup := fun _ n => .error (.unknownUser n)
  lookupGroup := fun _ n => .error (.unknownGroup n)
  groupAdd := fun s _ => (s, 0, none)
  userAdd := fun s _ _ => (s, userExistExit, some (.other "useradd: user already exists"))
  userDel := fun s _ => (s, 0, none)

/-- C8 witness: creating fresh "svc" with groups ["docker"] calls user-add
with ["docker", marker group]; the already-exists exit code plus error still
yields a handle and no error. -/
theorem C8_user_creation_witness :
    bC8.lookup () "svc" = .error (.unknownUser "svc") ∧
    (createGroupsLoop bC8 () (["docker"] ++ [TeleportServiceGroup])).2.2.1 = [] ∧
    Call.userAdd "svc" (["docker"] ++ [TeleportServiceGroup]) ∈
      (createTemporaryUser bC8 () "svc" ["docker"]).2.1 ∧
    (createTemporaryUser bC8 () "svc" ["docker"]).2.2.1 = some ⟨bC8, "svc"⟩ ∧
    (createTemporaryUser bC8 () "svc" ["docker"]).2.2.2.2 = none := by
  have h := C8_user_creation bC8 () () "svc" ["docker"] userExistExit
    (some (.other "useradd: user already exists")) rfl rfl rfl
  have hb := h.2.1 rfl
  exact ⟨rfl, rfl, h.1, hb.1, hb.2⟩

end UserMgmt
